import Mathlib

/-!
Verification of the `dataverse-recipes` scripts against their specification.

Each Python script is shallowly embedded: pure string/field manipulation
becomes Lean functions over `String` / `List Char`; dictionary payloads
become association lists; a Python `KeyError` or `sys.exit(1)` becomes the
`Except.error` branch; the sequence of `print` calls becomes a `List String`
of output lines (one element per `print`, the empty string for a bare
`print()`).
-/

namespace DataverseRecipes

/-- The single-quote character, written via its code point so that string
literals in this file can stay apostrophe-free. -/
def squote : String := String.mk [Char.ofNat 39]

/-- `startsWithL needle hay` is true when `needle` is an initial segment of
`hay` (character lists). -/
def startsWithL : List Char → List Char → Bool
  | [], _ => true
  | _ :: _, [] => false
  | a :: as, b :: bs => a = b && startsWithL as bs

/-- `containsSub needle hay`: does `needle` occur as a contiguous substring
of `hay`? -/
def containsSub (needle : List Char) : List Char → Bool
  | [] => startsWithL needle []
  | c :: rest => startsWithL needle (c :: rest) || containsSub needle rest

/-- Number of positions of `hay` at which `needle` occurs. -/
def countOcc (needle : List Char) : List Char → Nat
  | [] => 0
  | c :: rest => (if startsWithL needle (c :: rest) then 1 else 0) + countOcc needle rest

/-!
## Tag stripping: `re.sub('<[^<]+?>', '', message)`
(notifications.py line 155)

Python regex semantics of `<[^<]+?>` at a position: the character `<`,
followed (non-greedily) by one or more characters that are not `<`, then
`>`.  Because the middle is non-greedy, the match closes at the first `>`
that appears after at least one middle character; if a `<` is met first the
match attempt at this position fails.  `re.sub` scans left to right,
removing each match and resuming after it.
-/

/-- Given the characters after an opening `<`, return the remainder of the
list after the closing `>` of the shortest match `<[^<]+?>`, or `none` if no
match starts at this `<`. -/
def tagClose : List Char → Option (List Char)
  | [] => none
  | c :: rest =>
    if c = '<' then none
    else
      match rest with
      | '>' :: rest2 => some rest2
      | _ => tagClose rest

/-- Fuel-indexed left-to-right scan removing every match of `<[^<]+?>`.
Each step consumes at least one character, so fuel `l.length` is always
enough; the fuel-0 branch is unreachable from `stripTags`. -/
def stripAux : Nat → List Char → List Char
  | 0, l => l
  | _ + 1, [] => []
  | fuel + 1, c :: rest =>
    if c = '<' then
      match tagClose rest with
      | some rest2 => stripAux fuel rest2
      | none => c :: stripAux fuel rest
    else c :: stripAux fuel rest

/-- `re.sub('<[^<]+?>', '', s)`. -/
def stripTags (s : String) : String := String.mk (stripAux s.data.length s.data)

/-- Does some position of `l` start a match of `<[^<]+?>`? -/
def hasTagMatch : List Char → Bool
  | [] => false
  | c :: rest => (c = '<' && (tagClose rest).isSome) || hasTagMatch rest

/-!
## Metrics date windows
(`num_installations.py` `construct_url`, lines 57-70;
 `site_metrics.py` `construct_url`, lines 81-92)

`datetime.strftime("%Y-%m")` zero-pads the month to two digits and prints
the year's digits (zero-padded to four; years outside 1000-9999 are not
produced by `strptime("%Y-%m")` on realistic inputs).
-/

/-- Two-digit zero-padded month, as `strftime("%m")`. -/
def pad2 (n : Nat) : String := if n < 10 then "0" ++ toString n else toString n

/-- Four-digit zero-padded year, as `strftime("%Y")`. -/
def pad4 (n : Nat) : String :=
  if n < 10 then "000" ++ toString n
  else if n < 100 then "00" ++ toString n
  else if n < 1000 then "0" ++ toString n
  else toString n

/-- `strftime("%Y-%m")`. -/
def formatYM (y m : Nat) : String := pad4 y ++ "-" ++ pad2 m

/-- Lines 59-64 of `num_installations.py` (identical in `site_metrics.py`):
`month = desired_month.month + 1; if month > 12: month = 1; year += 1`. -/
def nextMonthPair (y m : Nat) : Nat × Nat :=
  if m + 1 > 12 then (y + 1, 1) else (y, m + 1)

namespace NumInstallations

/-- `construct_url` of `num_installations.py`. -/
def construct_url (y m : Nat) : String :=
  let p := nextMonthPair y m
  "https://hub.dataverse.org/api/installation/metrics/monthly?fromDate="
    ++ formatYM y m ++ "&toDate=" ++ formatYM p.1 p.2

end NumInstallations

namespace SiteMetrics

/-- `construct_url` of `site_metrics.py`. -/
def construct_url (y m : Nat) (dvHubId : String) : String :=
  let p := nextMonthPair y m
  "https://hub.dataverse.org/api/installation/metrics/monthly?fromDate="
    ++ formatYM y m ++ "&toDate=" ++ formatYM p.1 p.2 ++ "&dvHubId=" ++ dvHubId

end SiteMetrics

/-!
## Notification renderer
(`notifications.py` `main`, lines 43-157)

A notification is the JSON object of one element of
`json_raw["data"]["notifications"]`, embedded as an association list of
string fields.  A Python `notification[key]` lookup on a missing key raises
`KeyError` and aborts the run with a traceback (non-zero exit); this is the
`Except.error` branch.  Each `print(...)` contributes one element to the
output-line list (`print()` contributes `""`; `print(notification)` prints
the dict repr).
-/

namespace Notifications

structure Notification where
  fields : List (String × String)
deriving DecidableEq

/-- Dictionary lookup `notification[k]` as an `Option`. -/
def getF (n : Notification) (k : String) : Option String :=
  (n.fields.find? (fun p => p.1 == k)).map (fun p => p.2)

/-- Python `repr` of the string-valued dict, as printed by
`print(notification)` (line 75). -/
def pyReprDict (fields : List (String × String)) : String :=
  "\x7b"
    ++ String.intercalate ", "
      (fields.map (fun p => squote ++ p.1 ++ squote ++ ": " ++ squote ++ p.2 ++ squote))
    ++ "\x7d"

/-- The message a `KeyError` aborts with. -/
def keyError (k : String) : String := "KeyError: " ++ squote ++ k ++ squote

/-- `notification[k]`: the value, or a fatal `KeyError`. -/
def getRequired (n : Notification) (k : String) : Except String String :=
  match getF n k with
  | some v => Except.ok v
  | none => Except.error (keyError k)

/-- Line 73: the initial default message (about a deleted object). -/
def fallbackMessage : String :=
  "The dataverse, dataset, or file for this notification has been deleted."

/-- Lines 92-93: the ASSIGNROLE message (role and collection are hardcoded
in the script). -/
def assignRoleMessage : String :=
  let role := "FIXME---Admin/Dataverse + Dataset Creator---FIXME"
  "You have been granted the " ++ role
    ++ " role for <a href=\"/dataverse/root\" title=\"Root\">Root</a>."

/-- Line 112: the SUBMITTEDDS message template. -/
def submittedMessage (durl dt pcurl pcn rfn rln remail : String) : String :=
  "<a href=\"" ++ durl ++ "\" title=\"" ++ dt ++ "\">" ++ dt
    ++ "</a> was submitted for review to be published in <a href=\"" ++ pcurl
    ++ "\" title=\"" ++ pcn ++ "\">" ++ pcn ++ "</a>. Don" ++ squote
    ++ "t forget to publish it or send it back to the contributor, "
    ++ rfn ++ " " ++ rln ++ " (" ++ remail ++ ")!"

/-- Lines 123-126: the CREATEACC message template. -/
def createAccMessage (ibn ugu : String) : String :=
  "Welcome to " ++ ibn
    ++ "! Get started by adding or finding data. Have questions? Check out the <a href=\""
    ++ ugu
    ++ "\" title=\"User Guide\" target=\"_blank\">User Guide</a>. Want to test out Dataverse features? Use our <a href=\"https://demo.dataverse.org\">Demo Site</a>. Also, check for your welcome email to verify your address."

/-- Lines 135-136: the REQUESTFILEACCESS message template (the URL is
hardcoded; the fetched `manageFilePermissions...` field is unused). -/
def requestFileAccessMessage (dt rfn rln remail : String) : String :=
  "File access requested for dataset: <a href=\"/permissions-manage-files.xhtml?id=110\" title=\""
    ++ dt ++ "\">" ++ dt ++ "</a> was made by " ++ rfn ++ " " ++ rln
    ++ " (" ++ remail ++ ")."

/-- Lines 151-152: the RETURNEDDS message template. -/
def returnedMessage (durl dt pcurl pcn : String) : String :=
  "<a href=\"" ++ durl ++ "\" title=\"" ++ dt ++ "\">" ++ dt
    ++ "</a> was returned by the curator of <a href=\"" ++ pcurl
    ++ "\" title=\"" ++ pcn ++ "\">" ++ pcn ++ "</a>."

/-- Lines printed after the type dispatch for a branch that set `message`
to `msg`: the branch's own print of `msg` plus blank line (e.g. lines
94-95), then the tag-stripped reprint of lines 155-158. -/
def tailLines (msg ts : String) : List String :=
  [msg ++ " " ++ ts, "", stripTags msg ++ " " ++ ts, "", ""]

/-- One iteration of the `for notification in ...` loop (lines 70-158):
the list of lines printed for this notification, or the `KeyError` that
aborts the run.  A notification without `messageText` prints nothing. -/
def renderOne (n : Notification) : Except String (List String) :=
  match getF n "messageText" with
  | none => Except.ok []
  | some mt => do
    let ty ← getRequired n "type"
    let ts ← getRequired n "sentTimestamp"
    let head := [pyReprDict n.fields, mt ++ " " ++ ts, "", ""]
    if ty = "ASSIGNROLE" then
      pure (head ++ tailLines assignRoleMessage ts)
    else if ty = "SUBMITTEDDS" then do
      let dt ← getRequired n "datasetTitle"
      let rfn ← getRequired n "requestorFirstName"
      let rln ← getRequired n "requestorLastName"
      let rem ← getRequired n "requestorEmail"
      let durl ← getRequired n "datasetRelativeUrlToRootWithSpa"
      let pcn ← getRequired n "parentCollectionName"
      let pcu ← getRequired n "parentCollectionRelativeUrlToRootWithSpa"
      pure (head ++ tailLines (submittedMessage durl dt pcu pcn rfn rln rem) ts)
    else if ty = "CREATEACC" then do
      let ibn ← getRequired n "installationBrandName"
      let ugu ← getRequired n "userGuideUrl"
      pure (head ++ tailLines (createAccMessage ibn ugu) ts)
    else if ty = "REQUESTFILEACCESS" then do
      let _mfp ← getRequired n "manageFilePermissionsRelativeUrlToRootWithSpa"
      let dt ← getRequired n "datasetTitle"
      let rfn ← getRequired n "requestorFirstName"
      let rln ← getRequired n "requestorLastName"
      let rem ← getRequired n "requestorEmail"
      pure (head ++ tailLines (requestFileAccessMessage dt rfn rln rem) ts)
    else if ty = "RETURNEDDS" then do
      let dt ← getRequired n "datasetTitle"
      let durl ← getRequired n "datasetRelativeUrlToRootWithSpa"
      let pcn ← getRequired n "parentCollectionName"
      let pcu ← getRequired n "parentCollectionRelativeUrlToRootWithSpa"
      pure (head ++ tailLines (returnedMessage durl dt pcu pcn) ts)
    else
      pure (head ++ [stripTags mt ++ " " ++ ts, "", ""])

/-- The whole notification loop: concatenated output of every iteration, or
the first `KeyError`. -/
def processAll : List Notification → Except String (List String)
  | [] => Except.ok []
  | n :: rest => do
    let l ← renderOne n
    let ls ← processAll rest
    pure (l ++ ls)

/-- `construct_url` of `notifications.py` (line 181). -/
def construct_url (base_url : String) : String := base_url ++ "/api/notifications/all"

/-- `main` after the token check (lines 52-158): the verbose-only preamble
(lines 54-55 and 67-68, with the fetched JSON dump passed in as
`jsonFinal`), then the notification loop. -/
def run_notifications (verbose : Bool) (base_url jsonFinal : String)
    (notifs : List Notification) : Except String (List String) := do
  let pre := if verbose then ["Fetching notifications from " ++ construct_url base_url, jsonFinal]
    else []
  let body ← processAll notifs
  pure (pre ++ body)

end Notifications

/-!
## API-token resolution
(`notifications.py` lines 43-50 and `download_draft_croissant.py` lines
49-56; the two scripts contain the identical check)

`if not args.api_token:` — a missing (`None`) or empty token is falsy; then
the environment variable is consulted the same way; if both are falsy the
script prints the error and `sys.exit(1)`s before any network request.
-/

/-- Python falsiness of an optional string. -/
def pyFalsy : Option String → Bool
  | none => true
  | some s => s.isEmpty

/-- The error printed when no token is available. -/
def tokenErrorMessage : String :=
  "Error: API token is required. Provide it via the --api_token argument or the API_TOKEN environment variable."

/-- The token check shared by both scripts. -/
def resolveApiToken (cliToken envToken : Option String) : Except String String :=
  if pyFalsy cliToken then
    if pyFalsy envToken then Except.error tokenErrorMessage
    else Except.ok (envToken.getD "")
  else Except.ok (cliToken.getD "")

/-- `main` of `notifications.py`: token check, then fetch (its parsed result
is the `notifs` parameter), then rendering. -/
def notificationsMain (cliToken envToken : Option String) (verbose : Bool)
    (base_url jsonFinal : String) (notifs : List Notifications.Notification) :
    Except String (List String) := do
  let _tok ← resolveApiToken cliToken envToken
  Notifications.run_notifications verbose base_url jsonFinal notifs

/-!
## Croissant exporter
(`download_draft_croissant.py` `main`, lines 49-77)
-/

namespace Croissant

/-- Python `s.replace(old, new)` for one-character patterns. -/
def pyReplaceChar (old new : Char) (s : String) : String :=
  String.mk (s.data.map (fun c => if c = old then new else c))

/-- Line 74: the output filename
`f"croissant_{args.pid.replace(':', '_').replace('/', '_')}_{now}.json"`,
where `now` is `datetime.now().strftime('%Y%m%d_%H%M%S')`. -/
def makeFilename (pid now : String) : String :=
  "croissant_" ++ pyReplaceChar '/' '_' (pyReplaceChar ':' '_' pid)
    ++ "_" ++ now ++ ".json"

/-- `main` of `download_draft_croissant.py`, abstracted over the fetch:
token check first, then (fetch and) write; the result is the filename the
export is saved to. -/
def croissantMain (cliToken envToken : Option String) (pid now : String) :
    Except String String := do
  let _tok ← resolveApiToken cliToken envToken
  pure (makeFilename pid now)

end Croissant

/-!
## Training-materials lister
(`training.py`, module body, lines 13-28)

One TSV row from the crowdsourced sheet; `csv.DictReader` yields every
column as a string, and Python string truthiness is non-emptiness.
-/

namespace Training

structure Row where
  trainingMaterial : String
  date : String
  title : String
  installation : String
  ty : String
  target : String
  youtubeId : String
  nonYoutubeUrl : String
deriving DecidableEq

/-- Lines 21-27: `link` starts empty, a YouTube ID sets it to the watch
URL, and a non-YouTube landing page overrides it. -/
def rowLink (r : Row) : String :=
  let link := ""
  let link := if r.youtubeId.isEmpty then link
    else "https://www.youtube.com/watch?v=" ++ r.youtubeId
  if r.nonYoutubeUrl.isEmpty then link else r.nonYoutubeUrl

/-- Line 28: the printed report line for a training-material row. -/
def rowLine (r : Row) : String :=
  "Date: " ++ r.date ++ "; Title: " ++ r.title ++ "; Installation: "
    ++ r.installation ++ "; Type: " ++ r.ty ++ "; Target Audience: "
    ++ r.target ++ "; Languages: EN; Links: " ++ rowLink r

/-- Lines 13-28: rows not marked `Training material == 1` are skipped;
marked rows print `rowLine`. -/
def processRow (r : Row) : Option String :=
  if r.trainingMaterial ≠ "1" then none else some (rowLine r)

end Training

/-!
## PID failure-report aggregation
(`pidreport.py`, lines 18-37)

Each log line is `pid \t uri \t method \t ip \t time`; the loop builds a
dict `d` from pid to the list of formatted hits and counts blacklisted
lines in `blcount`.  The dict is embedded as an insertion-ordered
association list.
-/

namespace PidReport

structure LogEntry where
  pid : String
  uri : String
  method : String
  ip : String
  time : String
deriving DecidableEq

/-- Lines 18-19: the blacklisted IP addresses. -/
def blacklist : List String := ["146.6.15.11"]

/-- Line 35: the string appended for one non-blacklisted hit. -/
def formatHit (e : LogEntry) : String :=
  e.method ++ " " ++ e.uri ++ " from " ++ e.ip ++ " at " ++ e.time

/-- `pid in d` on the association-list dict. -/
def hasKey (d : List (String × List String)) (k : String) : Bool :=
  d.any (fun p => p.1 == k)

/-- `d[k].append(v)`: extend the list at key `k` (the loop only calls this
with `k` present). -/
def appendAt : List (String × List String) → String → String → List (String × List String)
  | [], _, _ => []
  | (k0, l0) :: rest, k, v =>
    if k0 = k then (k0, l0 ++ [v]) :: rest else (k0, l0) :: appendAt rest k v

/-- Lines 31-37: one loop iteration over the state `(d, blcount)`. -/
def step (st : List (String × List String) × Nat) (e : LogEntry) :
    List (String × List String) × Nat :=
  let d := if !hasKey st.1 e.pid && !blacklist.contains e.ip
    then st.1 ++ [(e.pid, [])] else st.1
  if !blacklist.contains e.ip then (appendAt d e.pid (formatHit e), st.2)
  else (d, st.2 + 1)

/-- The whole aggregation loop, starting from `d = {}`, `blcount = 0`. -/
def aggregate (entries : List LogEntry) : List (String × List String) × Nat :=
  entries.foldl step ([], 0)

/-- Python `line.split("\t")`: split at every tab, keeping empty parts. -/
def splitTabAux : List Char → List Char → List (List Char)
  | [], acc => [acc.reverse]
  | c :: rest, acc =>
    if c = '\t' then acc.reverse :: splitTabAux rest []
    else splitTabAux rest (c :: acc)

/-- `line.split("\t")` on a string. -/
def splitTab (line : String) : List String :=
  (splitTabAux line.data []).map String.mk

/-- Line 31: `(pid, uri, method, ip, time) = line.split("\t")` — a line
with any other number of fields raises `ValueError`. -/
def parseLine (line : String) : Option LogEntry :=
  match splitTab line with
  | [p, u, m, i, t] => some ⟨p, u, m, i, t⟩
  | _ => none

/-- Parsing plus aggregation over the file body (`f.readlines()[1:]`);
`none` is the `ValueError` abort on a malformed line. -/
def aggregateFile (lines : List String) : Option (List (String × List String) × Nat) :=
  (lines.mapM parseLine).map aggregate

end PidReport

namespace Notifications

/-- The payload fields the SUBMITTEDDS branch (lines 78 and 104-110) looks
up; a notification of that type missing any of them aborts with
`KeyError`. -/
def submittedRequired : List String :=
  ["sentTimestamp", "datasetTitle", "requestorFirstName", "requestorLastName",
   "requestorEmail", "datasetRelativeUrlToRootWithSpa", "parentCollectionName",
   "parentCollectionRelativeUrlToRootWithSpa"]

end Notifications

/-!
# Theorems
-/

set_option maxRecDepth 8192

/-- On a list with no tag match, the stripping scan (with enough fuel) is
the identity. -/
theorem stripAux_no_match : ∀ (fuel : Nat) (l : List Char),
    l.length ≤ fuel → hasTagMatch l = false → stripAux fuel l = l := by
  intro fuel
  induction fuel with
  | zero => intro l _ _; rfl
  | succ fuel ih =>
    intro l hlen hmatch
    match l with
    | [] => rfl
    | c :: rest =>
      simp only [hasTagMatch, Bool.or_eq_false_iff, Bool.and_eq_false_iff] at hmatch
      obtain ⟨h1, h2⟩ := hmatch
      simp only [List.length_cons, Nat.succ_le_succ_iff] at hlen
      by_cases hc : c = '<'
      · have hnone : tagClose rest = none := by
          rcases h1 with h1 | h1
          · simp [hc] at h1
          · exact Option.not_isSome_iff_eq_none.mp (by simp [h1])
        simp [stripAux, hc, hnone, ih rest hlen h2]
      · simp [stripAux, hc, ih rest hlen h2]

/-- C1: for every valid input month, the metrics date-window construction of
`num_installations.py` and `site_metrics.py` produces a query window whose
`fromDate` is the input month and whose `toDate` is the immediately
following calendar month, rolling the year over after December. -/
theorem c1_date_window (y m : Nat) (h1 : 1 ≤ m) (h2 : m ≤ 12) :
    NumInstallations.construct_url y m =
      "https://hub.dataverse.org/api/installation/metrics/monthly?fromDate="
        ++ formatYM y m ++ "&toDate="
        ++ formatYM (if m = 12 then y + 1 else y) (if m = 12 then 1 else m + 1)
    ∧ ∀ dvHubId : String,
      SiteMetrics.construct_url y m dvHubId =
        "https://hub.dataverse.org/api/installation/metrics/monthly?fromDate="
          ++ formatYM y m ++ "&toDate="
          ++ formatYM (if m = 12 then y + 1 else y) (if m = 12 then 1 else m + 1)
          ++ "&dvHubId=" ++ dvHubId := by
  have hnext : nextMonthPair y m
      = (if m = 12 then y + 1 else y, if m = 12 then 1 else m + 1) := by
    unfold nextMonthPair
    by_cases hm : m = 12
    · subst hm; simp
    · have hlt : ¬ (m + 1 > 12) := by omega
      simp [hlt, hm]
  constructor
  · unfold NumInstallations.construct_url
    rw [hnext]
  · intro dvHubId
    unfold SiteMetrics.construct_url
    rw [hnext]

/-- Witness for C1: the spec's two examples, 2025-03 and 2025-12. -/
theorem c1_date_window_witness :
    NumInstallations.construct_url 2025 3 =
      "https://hub.dataverse.org/api/installation/metrics/monthly?fromDate=2025-03&toDate=2025-04"
    ∧ NumInstallations.construct_url 2025 12 =
      "https://hub.dataverse.org/api/installation/metrics/monthly?fromDate=2025-12&toDate=2026-01"
    ∧ SiteMetrics.construct_url 2025 12 "DVN_HARVARD_DATAVERSE_2008" =
      "https://hub.dataverse.org/api/installation/metrics/monthly?fromDate=2025-12&toDate=2026-01&dvHubId=DVN_HARVARD_DATAVERSE_2008" :=
  ⟨((c1_date_window 2025 3 (by decide) (by decide)).1).trans (by decide),
   ((c1_date_window 2025 12 (by decide) (by decide)).1).trans (by decide),
   (((c1_date_window 2025 12 (by decide) (by decide)).2) "DVN_HARVARD_DATAVERSE_2008").trans (by decide)⟩

/-- C2 counterexample: tag-stripping is not idempotent.  On the string
`<a<b>c>` the regex `<[^<]+?>` matches only `<b>`, leaving `<ac>`; stripping
a second time removes `<ac>` entirely. -/
theorem c2_strip_not_idempotent_cex :
    stripTags "<a<b>c>" = "<ac>"
    ∧ stripTags (stripTags "<a<b>c>") = ""
    ∧ stripTags (stripTags "<a<b>c>") ≠ stripTags "<a<b>c>" := by decide

/-- C2 (amended): stripping is idempotent exactly when the once-stripped
string contains no further match of `<[^<]+?>`; on a string with no match
the stripper is the identity, so a second strip changes nothing.  Nested or
malformed markup can leave a fresh match behind, and then a second strip
removes more. -/
theorem c2_strip_idempotent_amended (s : String)
    (h : hasTagMatch (stripTags s).data = false) :
    stripTags (stripTags s) = stripTags s := by
  show String.mk (stripAux (stripTags s).data.length (stripTags s).data) = stripTags s
  rw [stripAux_no_match _ _ le_rfl h]

/-- Witness for C2 (amended) on a well-formed marked-up string. -/
theorem c2_strip_idempotent_amended_witness :
    hasTagMatch (stripTags "hello <b>world</b>").data = false
    ∧ stripTags "hello <b>world</b>" = "hello world"
    ∧ stripTags (stripTags "hello <b>world</b>") = stripTags "hello <b>world</b>" :=
  ⟨by decide, by decide, c2_strip_idempotent_amended "hello <b>world</b>" (by decide)⟩

/-- C6: given an empty notification list and verbose mode off, the renderer
prints nothing and the run succeeds (exit status 0, i.e. `Except.ok`). -/
theorem c6_empty_list_no_output (base_url jsonFinal : String) :
    Notifications.run_notifications false base_url jsonFinal [] = Except.ok [] := rfl

/-- C7 counterexample: the Croissant output filename does not contain the
pid as given — line 74 replaces every `:` and `/` of the pid with `_`
before embedding it. -/
theorem c7_filename_cex :
    Croissant.makeFilename "doi:10.5072/FK2/ABC123" "20250101_120000"
      = "croissant_doi_10.5072_FK2_ABC123_20250101_120000.json"
    ∧ containsSub "doi:10.5072/FK2/ABC123".data
        (Croissant.makeFilename "doi:10.5072/FK2/ABC123" "20250101_120000").data = false := by
  decide

/-- C7 (amended): the exporter writes to
`croissant_{pid2}_{timestamp}.json` where `pid2` is the pid with each `:`
and `/` replaced by `_`; the pid appears as given exactly when it contains
neither character. -/
theorem c7_filename_amended (pid now : String)
    (h : ∀ c ∈ pid.data, c ≠ ':' ∧ c ≠ '/') :
    Croissant.makeFilename pid now = "croissant_" ++ pid ++ "_" ++ now ++ ".json" := by
  have key : ∀ l : List Char, (∀ c ∈ l, c ≠ ':' ∧ c ≠ '/') →
      (l.map (fun c => if c = ':' then '_' else c)).map
        (fun c => if c = '/' then '_' else c) = l := by
    intro l hl
    induction l with
    | nil => rfl
    | cons c rest ih =>
      obtain ⟨hc1, hc2⟩ := hl c (by simp)
      simp only [List.map_cons, if_neg hc1, if_neg hc2, List.cons.injEq]
      exact ⟨trivial, ih (fun x hx => hl x (by simp [hx]))⟩
  show "croissant_" ++ Croissant.pyReplaceChar '/' '_' (Croissant.pyReplaceChar ':' '_' pid)
      ++ "_" ++ now ++ ".json" = _
  unfold Croissant.pyReplaceChar
  rw [show (String.mk (pid.data.map fun c => if c = ':' then '_' else c)).data
      = pid.data.map (fun c => if c = ':' then '_' else c) from rfl]
  rw [key pid.data h]

/-- Witness for C7 (amended): a pid without `:` or `/` appears verbatim. -/
theorem c7_filename_amended_witness :
    Croissant.makeFilename "FK2ABC123" "20250101_120000"
      = "croissant_FK2ABC123_20250101_120000.json" :=
  (c7_filename_amended "FK2ABC123" "20250101_120000" (by decide)).trans (by decide)

/-- C8: with no API token on the command line and none in the environment,
both token-requiring scripts fail with the token error message before the
network fetch happens — the outcome is this error whatever the fetch would
have returned (`notifs`, `jsonFinal`, `pid`, `now` are arbitrary). -/
theorem c8_missing_token (verbose : Bool) (base_url jsonFinal : String)
    (notifs : List Notifications.Notification) (pid now : String) :
    notificationsMain none none verbose base_url jsonFinal notifs
      = Except.error tokenErrorMessage
    ∧ Croissant.croissantMain none none pid now = Except.error tokenErrorMessage :=
  ⟨rfl, rfl⟩

/-- C9: in the training-materials lister, for a row marked as training
material the printed line carries `rowLink`, and `rowLink` is the
non-YouTube landing page when that is present (overriding YouTube), else
the YouTube watch URL when only the YouTube ID is present, else empty. -/
theorem c9_training_link (r : Training.Row) (h : r.trainingMaterial = "1") :
    Training.processRow r = some (Training.rowLine r)
    ∧ (r.nonYoutubeUrl.isEmpty = false → Training.rowLink r = r.nonYoutubeUrl)
    ∧ (r.nonYoutubeUrl.isEmpty = true → r.youtubeId.isEmpty = false →
        Training.rowLink r = "https://www.youtube.com/watch?v=" ++ r.youtubeId)
    ∧ (r.nonYoutubeUrl.isEmpty = true → r.youtubeId.isEmpty = true →
        Training.rowLink r = "") := by
  refine ⟨by simp [Training.processRow, h], ?_, ?_, ?_⟩
  · intro h1
    simp [Training.rowLink, h1]
  · intro h1 h2
    simp [Training.rowLink, h1, h2]
  · intro h1 h2
    simp [Training.rowLink, h1, h2]

/-- Witness for C9: a row with both a YouTube ID and a landing page prints
the landing page; the computed report line is checked concretely. -/
theorem c9_training_link_witness :
    Training.processRow
        ⟨"1", "2024-01-01", "Intro", "Demo", "Video", "All", "abc123",
         "https://example.org/landing"⟩
      = some "Date: 2024-01-01; Title: Intro; Installation: Demo; Type: Video; Target Audience: All; Languages: EN; Links: https://example.org/landing"
    ∧ Training.rowLink
        ⟨"1", "2024-01-01", "Intro", "Demo", "Video", "All", "abc123",
         "https://example.org/landing"⟩
      = "https://example.org/landing" := by
  have h := c9_training_link
    ⟨"1", "2024-01-01", "Intro", "Demo", "Video", "All", "abc123",
     "https://example.org/landing"⟩ rfl
  exact ⟨h.1.trans (by decide), h.2.1 (by decide)⟩

/-- Computation rules for the `Except` monad used by the renderer model. -/
theorem exceptBindOk {ε α β : Type} (a : α) (f : α → Except ε β) :
    (Except.ok a >>= f) = f a := rfl

theorem exceptBindError {ε α β : Type} (e : ε) (f : α → Except ε β) :
    ((Except.error e : Except ε α) >>= f) = Except.error e := rfl

theorem exceptMapOk {ε α β : Type} (f : α → β) (a : α) :
    (f <$> (Except.ok a : Except ε α)) = Except.ok (f a) := rfl

theorem exceptMapError {ε α β : Type} (f : α → β) (e : ε) :
    (f <$> (Except.error e : Except ε α)) = (Except.error e : Except ε β) := rfl

theorem exceptPureEq {ε α : Type} (a : α) :
    (pure a : Except ε α) = Except.ok a := rfl

/-- C3 counterexample: for a notification whose type has no specific
template (here `WEIRDTYPE`), the renderer does not emit the generic
deleted-object fallback string — it prints the notification dict, the raw
`messageText`, and its tag-stripped form; the fallback assigned at line 73
is overwritten at line 77 before any print. -/
theorem c3_no_fallback_cex :
    Notifications.processAll
        [⟨[("type", "WEIRDTYPE"), ("messageText", "Something happened."),
           ("sentTimestamp", "2025-05-01")]⟩]
      = Except.ok
        [Notifications.pyReprDict
           [("type", "WEIRDTYPE"), ("messageText", "Something happened."),
            ("sentTimestamp", "2025-05-01")],
         "Something happened. 2025-05-01", "", "",
         "Something happened. 2025-05-01", "", ""]
    ∧ ((Notifications.processAll
        [⟨[("type", "WEIRDTYPE"), ("messageText", "Something happened."),
           ("sentTimestamp", "2025-05-01")]⟩]).toOption.getD []).all
        (fun s => !(containsSub Notifications.fallbackMessage.data s.data)) = true :=
  ⟨rfl, by decide⟩

/-- C3 (amended): for a notification whose type has no specific template but
which carries a `messageText`, the renderer emits the notification's own
message (decorated and tag-stripped), never the deleted-object fallback; a
notification without `messageText` produces no output at all, so the
fallback string of line 73 is never printed. -/
theorem c3_unknown_type_amended (n : Notifications.Notification) (mt ty ts : String)
    (hmt : Notifications.getF n "messageText" = some mt)
    (hty : Notifications.getF n "type" = some ty)
    (hunknown : ty ∉ (["ASSIGNROLE", "SUBMITTEDDS", "CREATEACC",
        "REQUESTFILEACCESS", "RETURNEDDS"] : List String))
    (hts : Notifications.getF n "sentTimestamp" = some ts) :
    Notifications.renderOne n
      = Except.ok [Notifications.pyReprDict n.fields, mt ++ " " ++ ts, "", "",
          stripTags mt ++ " " ++ ts, "", ""]
    ∧ ∀ n2, Notifications.getF n2 "messageText" = none →
        Notifications.renderOne n2 = Except.ok [] := by
  constructor
  · simp only [List.mem_cons, List.not_mem_nil, or_false, not_or] at hunknown
    obtain ⟨ha, hs, hc, hr, hd⟩ := hunknown
    simp [Notifications.renderOne, Notifications.getRequired, hmt, hty, hts,
      ha, hs, hc, hr, hd, exceptBindOk, exceptPureEq]
  · intro n2 h2
    simp [Notifications.renderOne, h2]

/-- Witness for C3 (amended) at a concrete unknown-typed notification. -/
theorem c3_unknown_type_amended_witness :
    Notifications.renderOne
        ⟨[("type", "GRANTFILEACCESS"), ("messageText", "Access granted."),
          ("sentTimestamp", "2025-06-01")]⟩
      = Except.ok
        [Notifications.pyReprDict
           [("type", "GRANTFILEACCESS"), ("messageText", "Access granted."),
            ("sentTimestamp", "2025-06-01")],
         "Access granted. 2025-06-01", "", "", "Access granted. 2025-06-01", "", ""] := by
  have h := c3_unknown_type_amended
    ⟨[("type", "GRANTFILEACCESS"), ("messageText", "Access granted."),
      ("sentTimestamp", "2025-06-01")]⟩
    "Access granted." "GRANTFILEACCESS" "2025-06-01"
    (by decide) (by decide) (by decide) (by decide)
  exact h.1.trans (by rfl)

/-- C5: for a notification of type ASSIGNROLE, the rendered HTML message
contains exactly one anchor tag (one `<a ` opening and one `</a>` closing),
and its tag-stripped plain-text form contains no anchor tag at all. -/
theorem c5_assignrole_anchor (n : Notifications.Notification) (mt ts : String)
    (hmt : Notifications.getF n "messageText" = some mt)
    (hty : Notifications.getF n "type" = some "ASSIGNROLE")
    (hts : Notifications.getF n "sentTimestamp" = some ts) :
    Notifications.renderOne n
      = Except.ok [Notifications.pyReprDict n.fields, mt ++ " " ++ ts, "", "",
          Notifications.assignRoleMessage ++ " " ++ ts, "",
          stripTags Notifications.assignRoleMessage ++ " " ++ ts, "", ""]
    ∧ countOcc "<a ".data Notifications.assignRoleMessage.data = 1
    ∧ countOcc "</a>".data Notifications.assignRoleMessage.data = 1
    ∧ containsSub "<a".data (stripTags Notifications.assignRoleMessage).data = false := by
  refine ⟨?_, by decide, by decide, by decide⟩
  simp [Notifications.renderOne, Notifications.getRequired, hmt, hty, hts,
    Notifications.tailLines, exceptBindOk, exceptPureEq]

/-- Witness for C5 at a concrete ASSIGNROLE notification. -/
theorem c5_assignrole_anchor_witness :
    Notifications.renderOne
        ⟨[("type", "ASSIGNROLE"), ("messageText", "You got a role."),
          ("sentTimestamp", "2025-07-01")]⟩
      = Except.ok
        [Notifications.pyReprDict
           [("type", "ASSIGNROLE"), ("messageText", "You got a role."),
            ("sentTimestamp", "2025-07-01")],
         "You got a role. 2025-07-01", "", "",
         Notifications.assignRoleMessage ++ " 2025-07-01", "",
         "You have been granted the FIXME---Admin/Dataverse + Dataset Creator---FIXME role for Root. 2025-07-01",
         "", ""]
    ∧ countOcc "<a ".data Notifications.assignRoleMessage.data = 1 := by
  have h := c5_assignrole_anchor
    ⟨[("type", "ASSIGNROLE"), ("messageText", "You got a role."),
      ("sentTimestamp", "2025-07-01")]⟩
    "You got a role." "2025-07-01" (by decide) (by decide) (by decide)
  exact ⟨h.1.trans (by rfl), h.2.1⟩

/-- If the renderer fails with a `KeyError` on some notification of the
list, the whole loop run fails. -/
theorem processAllErrorOfMem (notifs : List Notifications.Notification)
    (n : Notifications.Notification) (hmem : n ∈ notifs)
    (herr : ∃ e, Notifications.renderOne n = Except.error e) :
    ∃ e, Notifications.processAll notifs = Except.error e := by
  induction notifs with
  | nil => cases hmem
  | cons m rest ih =>
    rcases List.mem_cons.mp hmem with rfl | hmem2
    · obtain ⟨e, he⟩ := herr
      exact ⟨e, by simp only [Notifications.processAll, he, exceptBindError]⟩
    · cases hr : Notifications.renderOne m with
      | error e =>
        exact ⟨e, by simp only [Notifications.processAll, hr, exceptBindError]⟩
      | ok l =>
        obtain ⟨e, he2⟩ := ih hmem2
        exact ⟨e, by
          simp only [Notifications.processAll, hr, exceptBindOk, he2, exceptBindError]⟩

/-- A successful rendering of a SUBMITTEDDS notification implies every
field the branch looks up was present. -/
theorem renderOneSubmittedRequires (n : Notifications.Notification)
    (l : List String) (mt : String)
    (hmt : Notifications.getF n "messageText" = some mt)
    (hty : Notifications.getF n "type" = some "SUBMITTEDDS")
    (hok : Notifications.renderOne n = Except.ok l) :
    ∀ k ∈ Notifications.submittedRequired, (Notifications.getF n k).isSome = true := by
  simp only [Notifications.renderOne, Notifications.getRequired, hmt, hty] at hok
  cases h1 : Notifications.getF n "sentTimestamp" with
  | none => rw [h1] at hok; simp [exceptBindOk, exceptBindError, exceptMapOk, exceptMapError] at hok
  | some ts =>
  rw [h1] at hok
  cases h2 : Notifications.getF n "datasetTitle" with
  | none => rw [h2] at hok; simp [exceptBindOk, exceptBindError, exceptMapOk, exceptMapError] at hok
  | some dt =>
  rw [h2] at hok
  cases h3 : Notifications.getF n "requestorFirstName" with
  | none => rw [h3] at hok; simp [exceptBindOk, exceptBindError, exceptMapOk, exceptMapError] at hok
  | some rfn =>
  rw [h3] at hok
  cases h4 : Notifications.getF n "requestorLastName" with
  | none => rw [h4] at hok; simp [exceptBindOk, exceptBindError, exceptMapOk, exceptMapError] at hok
  | some rln =>
  rw [h4] at hok
  cases h5 : Notifications.getF n "requestorEmail" with
  | none => rw [h5] at hok; simp [exceptBindOk, exceptBindError, exceptMapOk, exceptMapError] at hok
  | some rem =>
  rw [h5] at hok
  cases h6 : Notifications.getF n "datasetRelativeUrlToRootWithSpa" with
  | none => rw [h6] at hok; simp [exceptBindOk, exceptBindError, exceptMapOk, exceptMapError] at hok
  | some durl =>
  rw [h6] at hok
  cases h7 : Notifications.getF n "parentCollectionName" with
  | none => rw [h7] at hok; simp [exceptBindOk, exceptBindError, exceptMapOk, exceptMapError] at hok
  | some pcn =>
  rw [h7] at hok
  cases h8 : Notifications.getF n "parentCollectionRelativeUrlToRootWithSpa" with
  | none => rw [h8] at hok; simp [exceptBindOk, exceptBindError, exceptMapOk, exceptMapError] at hok
  | some pcu =>
  intro k hk
  simp only [Notifications.submittedRequired, List.mem_cons, List.not_mem_nil,
    or_false] at hk
  rcases hk with rfl | rfl | rfl | rfl | rfl | rfl | rfl | rfl <;>
    simp [h1, h2, h3, h4, h5, h6, h7, h8]

/-- C4: a notification list containing a SUBMITTEDDS notification (with a
`messageText`) whose payload is missing one of the fields that branch needs
makes the whole renderer run fail with an uncaught `KeyError` — the run is
an `Except.error`, never a success. -/
theorem c4_missing_field_fatal (notifs : List Notifications.Notification)
    (n : Notifications.Notification) (k : String)
    (hmem : n ∈ notifs)
    (hmt : (Notifications.getF n "messageText").isSome = true)
    (hty : Notifications.getF n "type" = some "SUBMITTEDDS")
    (hk : k ∈ Notifications.submittedRequired)
    (hmiss : Notifications.getF n k = none) :
    ∃ e, Notifications.processAll notifs = Except.error e := by
  apply processAllErrorOfMem notifs n hmem
  obtain ⟨mt, hmt2⟩ := Option.isSome_iff_exists.mp hmt
  cases hr : Notifications.renderOne n with
  | error e => exact ⟨e, rfl⟩
  | ok l =>
    have hall := renderOneSubmittedRequires n l mt hmt2 hty hr k hk
    rw [hmiss] at hall
    simp at hall

/-- Witness for C4: a SUBMITTEDDS record without `datasetTitle` aborts the
run; concretely the error is the `datasetTitle` KeyError. -/
theorem c4_missing_field_fatal_witness :
    (∃ e, Notifications.processAll
        [⟨[("type", "SUBMITTEDDS"), ("messageText", "m"), ("sentTimestamp", "t")]⟩]
      = Except.error e)
    ∧ Notifications.processAll
        [⟨[("type", "SUBMITTEDDS"), ("messageText", "m"), ("sentTimestamp", "t")]⟩]
      = Except.error (Notifications.keyError "datasetTitle") :=
  ⟨c4_missing_field_fatal
      [⟨[("type", "SUBMITTEDDS"), ("messageText", "m"), ("sentTimestamp", "t")]⟩]
      ⟨[("type", "SUBMITTEDDS"), ("messageText", "m"), ("sentTimestamp", "t")]⟩
      "datasetTitle" (by decide) (by decide) (by decide) (by decide) (by decide),
   rfl⟩

/-- Membership in the dict after `d[k].append(v)`: the binding was either
untouched, or it is the binding of `k` with `v` appended. -/
theorem appendAtMem (d : List (String × List String)) (k v p : String) (l : List String)
    (h : (p, l) ∈ PidReport.appendAt d k v) :
    (p, l) ∈ d ∨ (p = k ∧ ∃ l1, (p, l1) ∈ d ∧ l = l1 ++ [v]) := by
  induction d with
  | nil => simp [PidReport.appendAt] at h
  | cons hd rest ih =>
    obtain ⟨k0, l0⟩ := hd
    simp only [PidReport.appendAt] at h
    by_cases hk : k0 = k
    · rw [if_pos hk] at h
      rcases List.mem_cons.mp h with heq | hmem
      · rw [Prod.mk.injEq] at heq
        obtain ⟨hp, hl⟩ := heq
        exact Or.inr ⟨hp.trans hk, l0, by simp [hp], hl⟩
      · exact Or.inl (List.mem_cons_of_mem _ hmem)
    · rw [if_neg hk] at h
      rcases List.mem_cons.mp h with heq | hmem
      · exact Or.inl (heq ▸ List.mem_cons_self _ _)
      · rcases ih hmem with h1 | ⟨hp, l1, hm, hl⟩
        · exact Or.inl (List.mem_cons_of_mem _ h1)
        · exact Or.inr ⟨hp, l1, List.mem_cons_of_mem _ hm, hl⟩

/-- Invariant of the aggregation loop: the blacklist counter advances by
exactly the number of blacklisted entries, and every hit string in the dict
either predates the loop or is the formatted hit of a non-blacklisted
processed entry with the matching pid. -/
theorem aggregateInv (entries : List PidReport.LogEntry) :
    ∀ (d0 : List (String × List String)) (b0 : Nat),
    (entries.foldl PidReport.step (d0, b0)).2
        = b0 + (entries.filter (fun e => PidReport.blacklist.contains e.ip)).length
    ∧ ∀ p l, (p, l) ∈ (entries.foldl PidReport.step (d0, b0)).1 → ∀ s ∈ l,
        (∃ l0, (p, l0) ∈ d0 ∧ s ∈ l0)
        ∨ ∃ e, e ∈ entries ∧ e.pid = p ∧ PidReport.blacklist.contains e.ip = false
            ∧ s = PidReport.formatHit e := by
  induction entries with
  | nil =>
    intro d0 b0
    refine ⟨by simp, ?_⟩
    intro p l hmem s hs
    exact Or.inl ⟨l, hmem, hs⟩
  | cons e rest ih =>
    intro d0 b0
    cases hbl : PidReport.blacklist.contains e.ip with
    | true =>
      have hbl2 : e.ip ∈ PidReport.blacklist := by simpa using hbl
      have hstep : PidReport.step (d0, b0) e = (d0, b0 + 1) := by
        unfold PidReport.step
        rw [hbl]
        simp
      rw [List.foldl_cons, hstep]
      obtain ⟨hcount, hprov⟩ := ih d0 (b0 + 1)
      refine ⟨?_, ?_⟩
      · rw [hcount]
        simp [List.filter_cons, hbl2]
        omega
      · intro p l hmem s hs
        rcases hprov p l hmem s hs with h | ⟨e2, hm, hp, hb, hf⟩
        · exact Or.inl h
        · exact Or.inr ⟨e2, List.mem_cons_of_mem _ hm, hp, hb, hf⟩
    | false =>
      have main : ∀ d1 : List (String × List String),
          (∀ p l, (p, l) ∈ d1 → (p, l) ∈ d0 ∨ (p = e.pid ∧ l = [])) →
          ((rest.foldl PidReport.step
              (PidReport.appendAt d1 e.pid (PidReport.formatHit e), b0)).2
            = b0 + ((e :: rest).filter
                (fun x => PidReport.blacklist.contains x.ip)).length
          ∧ ∀ p l, (p, l) ∈ (rest.foldl PidReport.step
              (PidReport.appendAt d1 e.pid (PidReport.formatHit e), b0)).1 → ∀ s ∈ l,
              (∃ l0, (p, l0) ∈ d0 ∧ s ∈ l0)
              ∨ ∃ e2, e2 ∈ e :: rest ∧ e2.pid = p
                  ∧ PidReport.blacklist.contains e2.ip = false
                  ∧ s = PidReport.formatHit e2) := by
        intro d1 hd1mem
        have hbl2 : e.ip ∉ PidReport.blacklist := by simpa using hbl
        obtain ⟨hcount, hprov⟩ :=
          ih (PidReport.appendAt d1 e.pid (PidReport.formatHit e)) b0
        refine ⟨?_, ?_⟩
        · rw [hcount]
          simp [List.filter_cons, hbl2]
        · intro p l hmem s hs
          rcases hprov p l hmem s hs with ⟨l0, hl0mem, hsl0⟩ | ⟨e2, hm, hp, hb, hf⟩
          · rcases appendAtMem d1 e.pid (PidReport.formatHit e) p l0 hl0mem with
              hmd1 | ⟨hpk, l1, hl1mem, hleq⟩
            · rcases hd1mem p l0 hmd1 with h | ⟨_, hnil⟩
              · exact Or.inl ⟨l0, h, hsl0⟩
              · rw [hnil] at hsl0; cases hsl0
            · rw [hleq] at hsl0
              rcases List.mem_append.mp hsl0 with h | h
              · rcases hd1mem p l1 hl1mem with h2 | ⟨_, hnil⟩
                · exact Or.inl ⟨l1, h2, h⟩
                · rw [hnil] at h; cases h
              · simp only [List.mem_singleton] at h
                exact Or.inr ⟨e, List.mem_cons_self _ _, hpk.symm, hbl, h⟩
          · exact Or.inr ⟨e2, List.mem_cons_of_mem _ hm, hp, hb, hf⟩
      by_cases hkey : PidReport.hasKey d0 e.pid = true
      · have hstep : PidReport.step (d0, b0) e
            = (PidReport.appendAt d0 e.pid (PidReport.formatHit e), b0) := by
          unfold PidReport.step
          rw [hbl, hkey]
          simp
        rw [List.foldl_cons, hstep]
        exact main d0 (fun p l h => Or.inl h)
      · have hkey2 : PidReport.hasKey d0 e.pid = false := by
          simpa using hkey
        have hstep : PidReport.step (d0, b0) e
            = (PidReport.appendAt (d0 ++ [(e.pid, [])]) e.pid
                (PidReport.formatHit e), b0) := by
          unfold PidReport.step
          rw [hbl, hkey2]
          simp
        rw [List.foldl_cons, hstep]
        refine main (d0 ++ [(e.pid, [])]) ?_
        intro p l hm
        rcases List.mem_append.mp hm with h | h
        · exact Or.inl h
        · simp only [List.mem_singleton, Prod.mk.injEq] at h
          exact Or.inr h

/-- C10: in the PID failure-report aggregation, the blacklisted-entry
counter equals exactly the number of blacklisted input lines, and every
entry of every per-PID hit list is the formatted hit of some
non-blacklisted input line with that pid (so no blacklisted line is ever
appended to a per-PID list). -/
theorem c10_blacklist_aggregation (lines : List String)
    (d : List (String × List String)) (b : Nat)
    (h : PidReport.aggregateFile lines = some (d, b)) :
    ∃ entries, lines.mapM PidReport.parseLine = some entries
      ∧ PidReport.aggregate entries = (d, b)
      ∧ b = (entries.filter (fun e => PidReport.blacklist.contains e.ip)).length
      ∧ ∀ p l, (p, l) ∈ d → ∀ s ∈ l,
          ∃ e, e ∈ entries ∧ e.pid = p
            ∧ PidReport.blacklist.contains e.ip = false
            ∧ s = PidReport.formatHit e := by
  unfold PidReport.aggregateFile at h
  cases hm : lines.mapM PidReport.parseLine with
  | none =>
    rw [hm] at h
    simp at h
  | some entries =>
    rw [hm] at h
    have h2 : PidReport.aggregate entries = (d, b) := by
      simpa using h
    have hagg : entries.foldl PidReport.step ([], 0) = (d, b) := h2
    refine ⟨entries, rfl, h2, ?_, ?_⟩
    · have hc := (aggregateInv entries [] 0).1
      rw [hagg] at hc
      simpa using hc
    · intro p l hmem s hs
      have hprov := (aggregateInv entries [] 0).2 p l (by rw [hagg]; exact hmem) s hs
      rcases hprov with ⟨l0, hl0, _⟩ | good
      · simp at hl0
      · exact good

/-- Witness for C10: two log lines for the same DOI, one of them from the
blacklisted scanner IP; the counter is 1 and only the clean hit is kept. -/
theorem c10_blacklist_aggregation_witness :
    ∃ entries,
      (["doi:10-A\turi1\tGET\t1.2.3.4\tt1",
        "doi:10-A\turi2\tHEAD\t146.6.15.11\tt2"].mapM PidReport.parseLine) = some entries
      ∧ PidReport.aggregate entries
          = ([("doi:10-A", ["GET uri1 from 1.2.3.4 at t1"])], 1)
      ∧ 1 = (entries.filter (fun e => PidReport.blacklist.contains e.ip)).length
      ∧ ∀ p l, (p, l) ∈ [("doi:10-A", ["GET uri1 from 1.2.3.4 at t1"])] → ∀ s ∈ l,
          ∃ e, e ∈ entries ∧ e.pid = p
            ∧ PidReport.blacklist.contains e.ip = false
            ∧ s = PidReport.formatHit e :=
  c10_blacklist_aggregation
    ["doi:10-A\turi1\tGET\t1.2.3.4\tt1", "doi:10-A\turi2\tHEAD\t146.6.15.11\tt2"]
    [("doi:10-A", ["GET uri1 from 1.2.3.4 at t1"])] 1 (by decide)

end DataverseRecipes
